import Mathlib

/-!
Shallow embedding of the chat client's session and conversation state machine.

The repository contains three front-end variants of the same component:
* `ChatApp.tsx` (real backend): single global message log, login via
  `POST /login` storing a bearer token, chat via `POST /chat`.
* `part_002` (simulated backend, single log): login seeds a greeting
  message; replies are fabricated by a timed callback.
* `part_001` (simulated backend, multi-conversation): a conversation
  registry with `Date.now()` identifiers, selection, and a per-session log.

Machine-level concerns (React rendering, scrolling, CSS) are out of scope;
the embedding models the state held in the `useState` hooks and the exact
transitions the event handlers perform, with network outcomes passed in
explicitly.
-/

/-- Semantics of JavaScript's `String.prototype.trim` on the underlying
character list: strip whitespace from both ends. All three variants guard
their handlers with `username.trim()` / `userInput.trim()` truthiness,
which for strings means the trimmed string is non-empty. -/
def jsTrim (s : String) : String :=
  ⟨((s.data.dropWhile Char.isWhitespace).reverse.dropWhile Char.isWhitespace).reverse⟩

/-- Message role: the code's union type `'user' | 'assistant'`. -/
inductive Role where
  | user
  | assistant
deriving DecidableEq

/-- A chat message, as in the `Message` type of all three variants. -/
structure Message where
  role : Role
  content : String
deriving DecidableEq

/-! ### Real-backend variant: `ChatApp.tsx` -/

/-- State of the real-backend `ChatApp` component: the five `useState`
hooks plus the `access_token` slot in `localStorage`. -/
structure AppState where
  isLoggedIn : Bool
  username : String
  messages : List Message
  userInput : String
  darkMode : Bool
  token : Option String
deriving DecidableEq

/-- The component's initial state: all hooks at their `useState` initial
values and no stored token. -/
def initState : AppState :=
  { isLoggedIn := false, username := "", messages := [], userInput := ""
    darkMode := false, token := none }

/-- Outcome of the `POST /login` fetch: a 2xx response carrying
`access_token`, or any failure (non-2xx status or transport error). -/
inductive LoginOutcome where
  | ok (tok : String)
  | err
deriving DecidableEq

/-- Outcome of the `POST /chat` fetch: a 2xx response carrying `response`,
or any failure (non-2xx status or transport error). -/
inductive ChatOutcome where
  | ok (reply : String)
  | err
deriving DecidableEq

/-- The `handleLogin` handler of `ChatApp.tsx`. Returns the new state and
whether a network request was issued. Guard `if (username.trim())`: a blank
username skips the fetch entirely. On a 2xx response the token is stored
and `isLoggedIn` becomes true; on failure the handler only logs. -/
def handleLogin (s : AppState) (o : LoginOutcome) : AppState × Bool :=
  if jsTrim s.username = "" then (s, false)
  else
    match o with
    | .ok tok => ({ s with token := some tok, isLoggedIn := true }, true)
    | .err => (s, true)

/-- The `handleLogout` handler of `ChatApp.tsx`: clears login flag,
username, messages, input, and removes the stored token. -/
def handleLogout (s : AppState) : AppState :=
  { s with isLoggedIn := false, username := "", messages := [], userInput := ""
           token := none }

/-- The `handleSubmit` handler of `ChatApp.tsx`, run to completion of its
fetch. Guard `if (userInput.trim())`. The user message is appended and the
input cleared before the fetch; on a 2xx response the `response` field is
appended as an assistant message; on failure the handler only logs. -/
def handleSubmit (s : AppState) (o : ChatOutcome) : AppState :=
  if jsTrim s.userInput = "" then s
  else
    let s1 := { s with messages := s.messages ++ [⟨Role.user, s.userInput⟩]
                       userInput := "" }
    match o with
    | .ok reply => { s1 with messages := s1.messages ++ [⟨Role.assistant, reply⟩] }
    | .err => s1

/-- The `toggleDarkMode` handler of `ChatApp.tsx`: `setDarkMode(!darkMode)`. -/
def toggleDarkMode (s : AppState) : AppState :=
  { s with darkMode := !s.darkMode }

/-- Full machine state of the real-backend component. `handleLogin` and
`handleSubmit` are `async`: the code between a fetch and its continuation
runs in separate event-loop turns, and the UI stays interactive while
requests are in flight. The world therefore carries, besides the hook
state, the number of in-flight `/login` and `/chat` requests; their
resolutions are standalone events below. -/
structure World where
  app : AppState
  loginPending : Nat
  chatPending : Nat
deriving DecidableEq

/-- The initial world: initial hook state and no request in flight. -/
def initWorld : World :=
  { app := initState, loginPending := 0, chatPending := 0 }

/-- UI and network events of the real-backend variant. `typeUsername` is
the login form's input `onChange` (rendered only while logged out);
`typeInput` the chat input's `onChange`, and `submitClick` / `logoutClick`
the corresponding buttons (rendered only while logged in). `loginClick`
runs `handleLogin` up to its fetch; `loginDone` / `chatDone` are the
event-loop turns in which an in-flight fetch's continuation runs, with the
outcome chosen by the backend. -/
inductive Event where
  | typeUsername (u : String)
  | typeInput (t : String)
  | loginClick
  | loginDone (o : LoginOutcome)
  | submitClick
  | chatDone (o : ChatOutcome)
  | logoutClick
  | toggleDark
deriving DecidableEq

/-- One event-loop turn of the real-backend component. `loginClick` checks
the trim guard on the click-time username and, when it passes, only issues
the request; the continuation (`loginDone`) stores the token and sets the
login flag without re-reading `username`. `submitClick` appends the user
message and clears the input synchronously before its fetch; the
continuation (`chatDone`) appends the assistant reply on success — also
when a logout happened in between, since the component stays mounted and
its `setMessages` updater still runs. Completion events with no matching
in-flight request cannot occur; they are modelled as no-ops. -/
def step (w : World) : Event → World
  | .typeUsername u =>
      if w.app.isLoggedIn then w
      else { w with app := { w.app with username := u } }
  | .typeInput t =>
      if w.app.isLoggedIn then { w with app := { w.app with userInput := t } }
      else w
  | .loginClick =>
      if w.app.isLoggedIn then w
      else if jsTrim w.app.username = "" then w
      else { w with loginPending := w.loginPending + 1 }
  | .loginDone o =>
      match w.loginPending with
      | 0 => w
      | n + 1 =>
        match o with
        | .ok tok =>
            { w with loginPending := n
                     app := { w.app with token := some tok, isLoggedIn := true } }
        | .err => { w with loginPending := n }
  | .submitClick =>
      if w.app.isLoggedIn = false then w
      else if jsTrim w.app.userInput = "" then w
      else
        { w with chatPending := w.chatPending + 1
                 app := { w.app with
                            messages := w.app.messages ++ [⟨Role.user, w.app.userInput⟩]
                            userInput := "" } }
  | .chatDone o =>
      match w.chatPending with
      | 0 => w
      | n + 1 =>
        match o with
        | .ok reply =>
            { w with chatPending := n
                     app := { w.app with
                                messages := w.app.messages ++ [⟨Role.assistant, reply⟩] } }
        | .err => { w with chatPending := n }
  | .logoutClick =>
      if w.app.isLoggedIn then { w with app := handleLogout w.app } else w
  | .toggleDark => { w with app := toggleDarkMode w.app }

/-- Run a sequence of events from a world. -/
def run (w : World) (es : List Event) : World :=
  es.foldl step w

/-- A world is reachable when some event sequence produces it from the
initial world. -/
def Reachable (w : World) : Prop :=
  ∃ es : List Event, run initWorld es = w

/-! ### Simulated single-log variant: `part_002` -/

/-- State of the simulated single-log `ChatApp` variant (`part_002`): the
same five hooks, with no token storage. -/
structure SimState where
  isLoggedIn : Bool
  username : String
  messages : List Message
  userInput : String
  darkMode : Bool
deriving DecidableEq

/-- The greeting message this variant's `handleLogin` seeds the log with:
`Hello ${username}! How can I assist you today?`. -/
def simGreeting (username : String) : Message :=
  ⟨Role.assistant, "Hello " ++ username ++ "! How can I assist you today?"⟩

/-- The `handleLogin` handler of `part_002`: guard `if (username.trim())`;
on a non-blank username it logs in and replaces the message log with a
single assistant greeting. No network request is involved. -/
def handleLogin2 (s : SimState) : SimState :=
  if jsTrim s.username = "" then s
  else { s with isLoggedIn := true, messages := [simGreeting s.username] }

/-- The `handleLogout` handler of `part_002`. -/
def handleLogout2 (s : SimState) : SimState :=
  { s with isLoggedIn := false, username := "", messages := [], userInput := "" }

/-- The `handleSubmit` handler of `part_002`: guard `if (userInput.trim())`;
appends the user message and clears the input. The second component records
that the timed simulated reply was scheduled (`setTimeout`). -/
def handleSubmit2 (s : SimState) : SimState × Bool :=
  if jsTrim s.userInput = "" then (s, false)
  else ({ s with messages := s.messages ++ [⟨Role.user, s.userInput⟩]
                 userInput := "" }, true)

/-- Delivery of `part_002`'s timed simulated reply for the submitted text
`input`: appends `This is a simulated response to "${userInput}".`. -/
def simReply2 (s : SimState) (input : String) : SimState :=
  { s with messages := s.messages ++
      [⟨Role.assistant, "This is a simulated response to \"" ++ input ++ "\"."⟩] }

/-- The `toggleDarkMode` handler of `part_002`. -/
def toggleDarkMode2 (s : SimState) : SimState :=
  { s with darkMode := !s.darkMode }

/-! ### Multi-conversation variant: `part_001` -/

/-- A conversation of the multi-conversation variant (`part_001`):
`{ id: number, title: string }`, the id produced by `Date.now()`. -/
structure Conversation where
  id : Nat
  title : String
deriving DecidableEq

/-- State of the multi-conversation `ChatApp` variant (`part_001`): login
flag, username, the conversation registry, the selected conversation, the
active message log, the input field, and the dark-mode flag. -/
structure MultiState where
  isLoggedIn : Bool
  username : String
  conversations : List Conversation
  currentConversation : Option Conversation
  messages : List Message
  userInput : String
  darkMode : Bool
deriving DecidableEq

/-- Initial state of the multi-conversation variant: every hook at its
`useState` initial value. -/
def initMulti : MultiState :=
  { isLoggedIn := false, username := "", conversations := []
    currentConversation := none, messages := [], userInput := ""
    darkMode := false }

/-- The `handleLogin` handler of `part_001`: guard `if (username.trim())`;
sets the login flag only. No network request is involved. -/
def handleLogin1 (s : MultiState) : MultiState :=
  if jsTrim s.username = "" then s
  else { s with isLoggedIn := true }

/-- The `handleLogout` handler of `part_001`: clears login flag, username,
registry, selection, and message log (the input field is untouched). -/
def handleLogout1 (s : MultiState) : MultiState :=
  { s with isLoggedIn := false, username := "", conversations := []
           currentConversation := none, messages := [] }

/-- The `addNewConversation` handler of `part_001`, with the `Date.now()`
reading passed explicitly as `now`: builds a conversation with id `now`
and title `Conversation ${conversations.length + 1}`, appends it to the
registry, selects it, and empties the message log. -/
def addNewConversation (s : MultiState) (now : Nat) : MultiState :=
  let newConversation : Conversation :=
    ⟨now, "Conversation " ++ toString (s.conversations.length + 1)⟩
  { s with conversations := s.conversations ++ [newConversation]
           currentConversation := some newConversation
           messages := [] }

/-- The `selectConversation` handler of `part_001`: takes the conversation
value itself, unconditionally makes it current, and empties the message
log. There is no membership check and no failure path. -/
def selectConversation (s : MultiState) (conversation : Conversation) : MultiState :=
  { s with currentConversation := some conversation, messages := [] }

/-- The `handleSubmit` handler of `part_001`: guard `if (userInput.trim())`;
appends the user message and clears the input. The second component records
that the timed simulated reply was scheduled (`setTimeout`). No condition on
`currentConversation` appears anywhere in the handler. -/
def handleSubmit1 (s : MultiState) : MultiState × Bool :=
  if jsTrim s.userInput = "" then (s, false)
  else ({ s with messages := s.messages ++ [⟨Role.user, s.userInput⟩]
                 userInput := "" }, true)

/-- Delivery of `part_001`'s timed simulated reply: appends
`Hello ${username}, this is a simulated response.`. -/
def simReply1 (s : MultiState) : MultiState :=
  { s with messages := s.messages ++
      [⟨Role.assistant, "Hello " ++ s.username ++ ", this is a simulated response."⟩] }

/-- The `toggleDarkMode` handler of `part_001`. -/
def toggleDarkMode1 (s : MultiState) : MultiState :=
  { s with darkMode := !s.darkMode }

/-- Repeated `addNewConversation` clicks, one per clock reading in `ts`. -/
def createRun (s : MultiState) (ts : List Nat) : MultiState :=
  ts.foldl addNewConversation s

/-- The identifiers currently in the registry, in insertion order. -/
def registryIds (s : MultiState) : List Nat :=
  s.conversations.map Conversation.id

/-! ### Reachability invariant of the real-backend variant -/

/-- Invariant of every reachable world: a token is stored exactly while
logged in. The success continuation of the login fetch stores the token
and sets the login flag in the same turn, and logout removes both in the
same turn; no other turn touches either. (No such relationship holds for
`username`: the login form edits it while logged out, and editing it
during an in-flight login does not affect the completion.) -/
def TokenInv (w : World) : Prop :=
  w.app.token.isSome = w.app.isLoggedIn

theorem tokenInv_init : TokenInv initWorld := rfl

theorem tokenInv_step (w : World) (e : Event) (h : TokenInv w) :
    TokenInv (step w e) := by
  cases e with
  | typeUsername u =>
    by_cases hl : w.app.isLoggedIn = true <;> simpa [step, hl, TokenInv] using h
  | typeInput t =>
    by_cases hl : w.app.isLoggedIn = true <;> simpa [step, hl, TokenInv] using h
  | loginClick =>
    by_cases hl : w.app.isLoggedIn = true
    · simpa [step, hl, TokenInv] using h
    · by_cases hu : jsTrim w.app.username = "" <;>
        simpa [step, hl, hu, TokenInv] using h
  | loginDone o =>
    cases hp : w.loginPending with
    | zero => simpa [step, hp, TokenInv] using h
    | succ n =>
      cases o with
      | ok tok => simp [step, hp, TokenInv]
      | err => simpa [step, hp, TokenInv] using h
  | submitClick =>
    by_cases hl : w.app.isLoggedIn = true
    · by_cases hu : jsTrim w.app.userInput = "" <;>
        simpa [step, hl, hu, TokenInv] using h
    · simp only [Bool.not_eq_true] at hl
      simpa [step, hl, TokenInv] using h
  | chatDone o =>
    cases hp : w.chatPending with
    | zero => simpa [step, hp, TokenInv] using h
    | succ n =>
      cases o with
      | ok reply => simpa [step, hp, TokenInv] using h
      | err => simpa [step, hp, TokenInv] using h
  | logoutClick =>
    by_cases hl : w.app.isLoggedIn = true
    · simp [step, hl, handleLogout, TokenInv]
    · simpa [step, hl, TokenInv] using h
  | toggleDark => simpa [step, toggleDarkMode, TokenInv] using h

theorem tokenInv_run (w : World) (es : List Event) (h : TokenInv w) :
    TokenInv (run w es) := by
  induction es generalizing w with
  | nil => exact h
  | cons e es ih => exact ih (step w e) (tokenInv_step w e h)

theorem reachable_tokenInv (w : World) (h : Reachable w) : TokenInv w := by
  obtain ⟨es, hes⟩ := h
  exact hes ▸ tokenInv_run initWorld es tokenInv_init

/-! ### Claim theorems -/

/-- C1: the claim says every `createConversation` id is distinct from all
earlier ids in the registry instance. The code takes the id from
`Date.now()`, so two clicks within the same millisecond — here two calls
both reading clock value 5 — produce the registry id sequence `[5, 5]`,
which is not pairwise distinct. The code also uses `conv.id` as a React
list key, which itself requires uniqueness, so the collision contradicts
the code's own intent. -/
theorem duplicate_timestamp_ids :
    registryIds (createRun initMulti [5, 5]) = [5, 5] ∧
    ¬ (registryIds (createRun initMulti [5, 5])).Nodup := by
  decide

/-- A conversation that was never added to any registry. -/
def ghostConversation : Conversation := ⟨99, "ghost"⟩

/-- C2 counterexample: `selectConversation` performs no membership check
and has no failure path. Selecting a conversation that is not in the
(empty) registry does not fail: it simply becomes the current
conversation. -/
theorem select_missing_conversation_selects :
    ghostConversation ∉ initMulti.conversations ∧
    (selectConversation initMulti ghostConversation).currentConversation =
      some ghostConversation := by
  decide

/-- C2 amended: for a conversation that does exist in the registry,
`selectConversation` makes it current and empties the message log, leaving
the registry and login state untouched; no `NotFoundError` (or any failure
path) exists in the code for the non-member case, which instead also
succeeds. -/
theorem select_existing_conversation (s : MultiState) (c : Conversation)
    (h : c ∈ s.conversations) :
    (selectConversation s c).currentConversation = some c ∧
    (selectConversation s c).messages = [] ∧
    (selectConversation s c).conversations = s.conversations ∧
    (selectConversation s c).isLoggedIn = s.isLoggedIn :=
  ⟨rfl, rfl, rfl, rfl⟩

/-- A one-conversation registry used to instantiate selection. -/
def demoConversation : Conversation := ⟨7, "Conversation 1"⟩

/-- A state whose registry holds exactly `demoConversation`. -/
def demoMulti : MultiState := { initMulti with conversations := [demoConversation] }

/-- Witness for `select_existing_conversation` at a concrete registry. -/
theorem select_existing_conversation_witness :
    (selectConversation demoMulti demoConversation).currentConversation =
      some demoConversation ∧
    (selectConversation demoMulti demoConversation).messages = [] ∧
    (selectConversation demoMulti demoConversation).conversations =
      demoMulti.conversations ∧
    (selectConversation demoMulti demoConversation).isLoggedIn =
      demoMulti.isLoggedIn :=
  select_existing_conversation demoMulti demoConversation (by decide)

/-- C5: when the `POST /chat` call fails (any non-2xx status or transport
error), the submitted non-blank message still appends exactly the user's
own message — the log grows by exactly one — and no assistant message and
no error indication is added: every other piece of state is unchanged
(the input field is cleared before the request is made). -/
theorem failed_send_appends_only_user (s : AppState)
    (h : jsTrim s.userInput ≠ "") :
    (handleSubmit s ChatOutcome.err).messages =
      s.messages ++ [⟨Role.user, s.userInput⟩] ∧
    (handleSubmit s ChatOutcome.err).messages.length = s.messages.length + 1 ∧
    (handleSubmit s ChatOutcome.err).isLoggedIn = s.isLoggedIn ∧
    (handleSubmit s ChatOutcome.err).username = s.username ∧
    (handleSubmit s ChatOutcome.err).token = s.token ∧
    (handleSubmit s ChatOutcome.err).darkMode = s.darkMode := by
  refine ⟨?_, ?_, ?_, ?_, ?_, ?_⟩ <;> simp [handleSubmit, h]

/-- A logged-in state with a pending non-blank input. -/
def c5State : AppState :=
  { initState with isLoggedIn := true, username := "alice"
                   token := some "T1", userInput := "hi" }

/-- Witness for `failed_send_appends_only_user` on a concrete state. -/
theorem failed_send_appends_only_user_witness :
    (handleSubmit c5State ChatOutcome.err).messages =
      c5State.messages ++ [⟨Role.user, c5State.userInput⟩] ∧
    (handleSubmit c5State ChatOutcome.err).messages.length =
      c5State.messages.length + 1 ∧
    (handleSubmit c5State ChatOutcome.err).isLoggedIn = c5State.isLoggedIn ∧
    (handleSubmit c5State ChatOutcome.err).username = c5State.username ∧
    (handleSubmit c5State ChatOutcome.err).token = c5State.token ∧
    (handleSubmit c5State ChatOutcome.err).darkMode = c5State.darkMode :=
  failed_send_appends_only_user c5State (by decide)

/-- C6: a username that is blank after trimming makes login a no-op in
both the real-backend variant (`handleLogin` returns the state unchanged
and issues no network request — second component `false`) and the
multi-conversation variant (`handleLogin1` returns the state unchanged;
that variant performs no network requests at all). -/
theorem blank_login_noop (s : AppState) (o : LoginOutcome) (m : MultiState)
    (hs : jsTrim s.username = "") (hm : jsTrim m.username = "") :
    handleLogin s o = (s, false) ∧ handleLogin1 m = m := by
  constructor
  · simp [handleLogin, hs]
  · simp [handleLogin1, hm]

/-- A state whose username is whitespace-only. -/
def blankNameState : AppState := { initState with username := "   " }

/-- Witness for `blank_login_noop` at a whitespace-only username. -/
theorem blank_login_noop_witness :
    handleLogin blankNameState LoginOutcome.err = (blankNameState, false) ∧
    handleLogin1 initMulti = initMulti :=
  blank_login_noop blankNameState LoginOutcome.err initMulti (by decide) (by decide)

/-- C7: from any state whatsoever, logout empties the session (login flag
false, username empty, token discarded), the conversation registry, the
selection, and the message log, and logout is idempotent — in the
multi-conversation variant (`handleLogout1`) and the real-backend variant
(`handleLogout`) alike. -/
theorem logout_resets_everything (s : MultiState) (t : AppState) :
    (handleLogout1 s).isLoggedIn = false ∧
    (handleLogout1 s).username = "" ∧
    (handleLogout1 s).conversations = [] ∧
    (handleLogout1 s).currentConversation = none ∧
    (handleLogout1 s).messages = [] ∧
    handleLogout1 (handleLogout1 s) = handleLogout1 s ∧
    (handleLogout t).isLoggedIn = false ∧
    (handleLogout t).username = "" ∧
    (handleLogout t).token = none ∧
    (handleLogout t).messages = [] ∧
    (handleLogout t).userInput = "" ∧
    handleLogout (handleLogout t) = handleLogout t :=
  ⟨rfl, rfl, rfl, rfl, rfl, rfl, rfl, rfl, rfl, rfl, rfl, rfl⟩

/-- C9: in the multi-conversation variant, submitting a non-blank input
while no conversation is selected is accepted: the user message is
appended to the log, the simulated reply is scheduled (second component
`true`), and the selection stays `none` — the handler has no guard on
`currentConversation`. -/
theorem submit_without_selected_conversation (s : MultiState)
    (hsel : s.currentConversation = none) (h : jsTrim s.userInput ≠ "") :
    (handleSubmit1 s).2 = true ∧
    (handleSubmit1 s).1.messages = s.messages ++ [⟨Role.user, s.userInput⟩] ∧
    (handleSubmit1 s).1.currentConversation = none := by
  refine ⟨?_, ?_, ?_⟩ <;> simp [handleSubmit1, h, hsel]

/-- A logged-in multi-conversation state with no selection and a pending
input. -/
def c9State : MultiState :=
  { initMulti with isLoggedIn := true, username := "alice", userInput := "hi" }

/-- Witness for `submit_without_selected_conversation` on a concrete
state. -/
theorem submit_without_selected_conversation_witness :
    (handleSubmit1 c9State).2 = true ∧
    (handleSubmit1 c9State).1.messages =
      c9State.messages ++ [⟨Role.user, c9State.userInput⟩] ∧
    (handleSubmit1 c9State).1.currentConversation = none :=
  submit_without_selected_conversation c9State rfl (by decide)

/-- C10: toggling dark mode flips exactly the `darkMode` flag and leaves
login state, username, registry, selection, message log, input, and token
unchanged, in all three variants. -/
theorem toggle_dark_mode_frame (s : MultiState) (t : AppState) (u : SimState) :
    (toggleDarkMode1 s).darkMode = !s.darkMode ∧
    (toggleDarkMode1 s).isLoggedIn = s.isLoggedIn ∧
    (toggleDarkMode1 s).username = s.username ∧
    (toggleDarkMode1 s).conversations = s.conversations ∧
    (toggleDarkMode1 s).currentConversation = s.currentConversation ∧
    (toggleDarkMode1 s).messages = s.messages ∧
    (toggleDarkMode1 s).userInput = s.userInput ∧
    (toggleDarkMode t).darkMode = !t.darkMode ∧
    (toggleDarkMode t).isLoggedIn = t.isLoggedIn ∧
    (toggleDarkMode t).username = t.username ∧
    (toggleDarkMode t).messages = t.messages ∧
    (toggleDarkMode t).userInput = t.userInput ∧
    (toggleDarkMode t).token = t.token ∧
    (toggleDarkMode2 u).darkMode = !u.darkMode ∧
    (toggleDarkMode2 u).isLoggedIn = u.isLoggedIn ∧
    (toggleDarkMode2 u).username = u.username ∧
    (toggleDarkMode2 u).messages = u.messages ∧
    (toggleDarkMode2 u).userInput = u.userInput :=
  ⟨rfl, rfl, rfl, rfl, rfl, rfl, rfl, rfl, rfl, rfl, rfl, rfl, rfl, rfl, rfl,
   rfl, rfl, rfl⟩

/-- The world reached by typing `alice` into the login form and nothing
else. -/
def typedNameWorld : World :=
  { initWorld with app := { initState with username := "alice" } }

/-- The world reached by typing `alice`, clicking Login, clearing the
username input while the `/login` request is in flight, and then having
the request resolve 2xx with token `T1`: logged in with an empty
username. -/
def emptyNameLoggedInWorld : World :=
  { initWorld with app := { initState with isLoggedIn := true, token := some "T1" } }

/-- C4 counterexample: both directions of the username clause fail on
reachable states. Typing into the login form while logged out yields a
non-empty username without authentication; clearing the username while a
login request is in flight yields an authenticated state with an empty
username, because the continuation that sets `isLoggedIn` never re-reads
`username` (its trim guard ran at click time). -/
theorem typed_username_breaks_iff :
    (Reachable typedNameWorld ∧
      typedNameWorld.app.username ≠ "" ∧
      typedNameWorld.app.isLoggedIn = false ∧
      ¬ (typedNameWorld.app.username ≠ "" ↔ typedNameWorld.app.isLoggedIn = true)) ∧
    (Reachable emptyNameLoggedInWorld ∧
      emptyNameLoggedInWorld.app.username = "" ∧
      emptyNameLoggedInWorld.app.isLoggedIn = true ∧
      ¬ (emptyNameLoggedInWorld.app.username ≠ "" ↔
           emptyNameLoggedInWorld.app.isLoggedIn = true)) :=
  ⟨⟨⟨[Event.typeUsername "alice"], by decide⟩, by decide, by decide, by decide⟩,
   ⟨⟨[Event.typeUsername "alice", Event.loginClick, Event.typeUsername "",
      Event.loginDone (LoginOutcome.ok "T1")], by decide⟩,
    by decide, by decide, by decide⟩⟩

/-- C4 amended: in every reachable state of the real-backend variant, a
token is stored if and only if the session is authenticated. No direction
of the username clause survives: the login form mutates `username` while
logged out, and editing `username` during an in-flight login request does
not affect the completion that authenticates. -/
theorem token_auth_invariant (w : World) (hr : Reachable w) :
    w.app.token ≠ none ↔ w.app.isLoggedIn = true := by
  have h1 := reachable_tokenInv w hr
  constructor
  · intro ht
    cases htok : w.app.token with
    | none => exact absurd htok ht
    | some v => rw [TokenInv, htok] at h1; exact h1.symm
  · intro hl
    cases htok : w.app.token with
    | none => rw [TokenInv, htok, hl] at h1; simp at h1
    | some v => exact Option.some_ne_none v

/-- Witness for `token_auth_invariant` at a concrete reachable logged-in
world. -/
theorem token_auth_invariant_witness :
    emptyNameLoggedInWorld.app.token ≠ none ↔
      emptyNameLoggedInWorld.app.isLoggedIn = true :=
  token_auth_invariant emptyNameLoggedInWorld
    ⟨[Event.typeUsername "alice", Event.loginClick, Event.typeUsername "",
      Event.loginDone (LoginOutcome.ok "T1")], by decide⟩

/-- A logged-out `part_002` state with the username `alice` typed in. -/
def c3SimState : SimState :=
  { isLoggedIn := false, username := "alice", messages := [], userInput := ""
    darkMode := false }

/-- The trace in which a pending chat reply resolves after logout and
survives into the next login: login as `alice`, submit `hi`, log out while
the `/chat` request is in flight, let the reply `hello` arrive (appending
to the still-mounted component's log), then log in again. -/
def staleReplyTrace : List Event :=
  [Event.typeUsername "alice", Event.loginClick,
   Event.loginDone (LoginOutcome.ok "T1"), Event.typeInput "hi",
   Event.submitClick, Event.logoutClick, Event.chatDone (ChatOutcome.ok "hello"),
   Event.typeUsername "alice", Event.loginClick,
   Event.loginDone (LoginOutcome.ok "T2")]

/-- The world `staleReplyTrace` ends in: logged in again, with the stale
assistant reply still in the log. -/
def staleLoginWorld : World :=
  { app := { isLoggedIn := true, username := "alice"
             messages := [⟨Role.assistant, "hello"⟩], userInput := ""
             darkMode := false, token := some "T2" }
    loginPending := 0, chatPending := 0 }

/-- C3 counterexample: neither variant guarantees an empty log right after
a successful login. In `part_002` login seeds the log with one assistant
greeting; in the real-backend variant `handleLogin` never clears
`messages`, so a pending chat reply that resolves after a logout survives
into the next login, which then ends logged in with a non-empty log. -/
theorem login_nonempty_log_counterexample :
    ((handleLogin2 c3SimState).isLoggedIn = true ∧
      (handleLogin2 c3SimState).messages ≠ [] ∧
      (handleLogin2 c3SimState).messages = [simGreeting "alice"]) ∧
    (run initWorld staleReplyTrace = staleLoginWorld ∧
      staleLoginWorld.app.isLoggedIn = true ∧
      staleLoginWorld.app.messages ≠ []) := by
  refine ⟨⟨?_, ?_, ?_⟩, ⟨?_, ?_, ?_⟩⟩ <;> decide

/-- C3 amended: for a username that is non-blank at click time, a
successful login — the click followed by the 2xx completion of its
request — moves the controller from logged out to logged in. In the
real-backend variant it stores the returned token and leaves the message
log exactly as it was: empty whenever it was empty before the login, but
not in general, since a pending chat reply can resolve after a logout and
survive into the next login. In the `part_002` simulated variant the log
afterwards holds exactly the single assistant greeting. -/
theorem login_success_postcondition (w : World) (tok : String) (t : SimState)
    (hout : w.app.isLoggedIn = false) (hu : jsTrim w.app.username ≠ "")
    (ht : jsTrim t.username ≠ "") :
    (run w [Event.loginClick, Event.loginDone (LoginOutcome.ok tok)]).app.isLoggedIn
        = true ∧
    (run w [Event.loginClick, Event.loginDone (LoginOutcome.ok tok)]).app.token
        = some tok ∧
    (run w [Event.loginClick, Event.loginDone (LoginOutcome.ok tok)]).app.messages
        = w.app.messages ∧
    (handleLogin2 t).isLoggedIn = true ∧
    (handleLogin2 t).messages = [simGreeting t.username] := by
  refine ⟨?_, ?_, ?_, ?_, ?_⟩ <;>
    simp [run, step, hout, hu, handleLogin2, ht]

/-- Witness for `login_success_postcondition` at concrete states for both
variants. -/
theorem login_success_postcondition_witness :
    (run typedNameWorld
        [Event.loginClick, Event.loginDone (LoginOutcome.ok "T1")]).app.isLoggedIn
        = true ∧
    (run typedNameWorld
        [Event.loginClick, Event.loginDone (LoginOutcome.ok "T1")]).app.token
        = some "T1" ∧
    (run typedNameWorld
        [Event.loginClick, Event.loginDone (LoginOutcome.ok "T1")]).app.messages
        = typedNameWorld.app.messages ∧
    (handleLogin2 c3SimState).isLoggedIn = true ∧
    (handleLogin2 c3SimState).messages = [simGreeting c3SimState.username] :=
  login_success_postcondition typedNameWorld "T1" c3SimState
    rfl (by decide) (by decide)

/-! ### Sequential submit/reply rounds (real-backend variant) -/

/-- One complete round in the real-backend variant: the user types `p.1`
into the chat input and submits, and the `POST /chat` call returns 2xx
with reply `p.2` before anything else happens. -/
def submitRound (s : AppState) (p : String × String) : AppState :=
  handleSubmit { s with userInput := p.1 } (ChatOutcome.ok p.2)

/-- Sequentially run one complete round per pair in `ps`. -/
def runRounds (s : AppState) (ps : List (String × String)) : AppState :=
  ps.foldl submitRound s

/-- The messages that `ps` many sequential rounds produce: user message,
then assistant reply, per round. -/
def roundMessages : List (String × String) → List Message
  | [] => []
  | p :: ps => ⟨Role.user, p.1⟩ :: ⟨Role.assistant, p.2⟩ :: roundMessages ps

theorem runRounds_messages (s : AppState) (ps : List (String × String))
    (h : ∀ p ∈ ps, jsTrim p.1 ≠ "") :
    (runRounds s ps).messages = s.messages ++ roundMessages ps := by
  induction ps generalizing s with
  | nil => simp [runRounds, roundMessages]
  | cons p ps ih =>
    have hp : jsTrim p.1 ≠ "" := h p (List.mem_cons_self p ps)
    have hrest : ∀ q ∈ ps, jsTrim q.1 ≠ "" :=
      fun q hq => h q (List.mem_cons_of_mem p hq)
    show (runRounds (submitRound s p) ps).messages = _
    rw [ih (submitRound s p) hrest]
    simp [submitRound, handleSubmit, hp, roundMessages]

theorem roundMessages_length (ps : List (String × String)) :
    (roundMessages ps).length = 2 * ps.length := by
  induction ps with
  | nil => rfl
  | cons p ps ih => simp [roundMessages, ih]; omega

theorem roundMessages_role (ps : List (String × String)) (i : Nat)
    (h : i < (roundMessages ps).length) :
    ((roundMessages ps).get ⟨i, h⟩).role =
      if i % 2 = 0 then Role.user else Role.assistant := by
  induction ps generalizing i with
  | nil => simp [roundMessages] at h
  | cons p ps ih =>
    match i with
    | 0 => rfl
    | 1 => rfl
    | (i + 2) =>
      have h2 : i < (roundMessages ps).length := by
        simp only [roundMessages, List.length_cons] at h
        omega
      have hmod : (i + 2) % 2 = i % 2 := Nat.add_mod_right i 2
      rw [hmod]
      exact ih i h2

/-- C8: starting from an empty log, N sequential rounds — each submission
non-blank and each reply arriving successfully before the next submission
— produce a log of length `2 * N` whose roles strictly alternate starting
with the user role. -/
theorem alternating_message_log (s : AppState) (ps : List (String × String))
    (hempty : s.messages = []) (hnb : ∀ p ∈ ps, jsTrim p.1 ≠ "") :
    (runRounds s ps).messages.length = 2 * ps.length ∧
    ∀ (i : Nat) (h : i < (runRounds s ps).messages.length),
      ((runRounds s ps).messages.get ⟨i, h⟩).role =
        if i % 2 = 0 then Role.user else Role.assistant := by
  have hm : (runRounds s ps).messages = roundMessages ps := by
    rw [runRounds_messages s ps hnb, hempty, List.nil_append]
  constructor
  · rw [hm]; exact roundMessages_length ps
  · intro i
    rw [hm]
    intro h
    exact roundMessages_role ps i h

/-- Witness for `alternating_message_log`: one round from the initial
state yields a log of length two. -/
theorem alternating_message_log_witness :
    (runRounds initState [("hi", "hello")]).messages.length = 2 * 1 :=
  (alternating_message_log initState [("hi", "hello")] rfl (by decide)).1
